import Mathlib

/-!
Verification of the `laplace` timeline core.

Shallow embedding, in Lean 4, of the timeline core of the repository:

* `TimeController` (src/core/TimeController.ts): the scrubbable
  current/target time with easing, scroll/jump input and clamping.
* `TemporalLayer.calculateRelevance` (src/core/TemporalLayer.ts):
  per-entity temporal visibility, built on `THREE.MathUtils.smoothstep`.
* `BattleManager.update`: the stochastic transient-artifact scheduler
  (spawn inside a war window, unconditional fade, removal at opacity ≤ 0).
* `SceneManager.updateTemporalSystems`: the moon-orbit advance gated on
  `TimeController.isMoving()`, with the angle wrapped by the JavaScript
  `%` remainder operator.
* `calculateLagrangePoints`: the five libration points of the
  Earth–Moon system.

JavaScript numbers are modelled as exact rationals (`ℚ`), except for the
libration-point computation whose cube root and trigonometry force `ℝ`.
`Math.random()` is modelled as an explicitly injected sample, and
`performance.now()` as an explicitly injected timestamp, so every
operation is a pure function of its inputs.
-/

namespace Laplace

/-! ## TimeController (src/core/TimeController.ts) -/

/-- Mutable state of `TimeController`.  The numeric fields are the TS
fields `currentYear`, `targetYear`, `transitionStartTime`, `lastYear`;
`isTransitioning` is the TS boolean flag. -/
structure TimeController where
  currentYear : ℚ
  targetYear : ℚ
  isTransitioning : Bool
  transitionStartTime : ℚ
  lastYear : ℚ
deriving Repr, DecidableEq

namespace TimeController

/-- `private minYear = 1`. -/
def minYear : ℚ := 1

/-- `private maxYear = 100`. -/
def maxYear : ℚ := 100

/-- `private scrollSensitivity = 0.05`. -/
def scrollSensitivity : ℚ := 5 / 100

/-- `private lerpFactor = 0.1`. -/
def lerpFactor : ℚ := 1 / 10

/-- `Math.max(minYear, Math.min(maxYear, x))`, the clamp used in
`handleScroll`, `jumpToYear` and `update`. -/
def clamp (x : ℚ) : ℚ := max minYear (min maxYear x)

/-- `constructor(startYear)`: sets `currentYear`, `targetYear` and
`lastYear` to `startYear`; `isTransitioning` starts `false` and
`transitionStartTime` starts `0`.  No clamping is performed. -/
def init (startYear : ℚ) : TimeController :=
  { currentYear := startYear
    targetYear := startYear
    isTransitioning := false
    transitionStartTime := 0
    lastYear := startYear }

/-- `handleScroll(deltaY)`.  The TS code computes
`direction = deltaY > 0 ? 1 : -1`, adds `direction * scrollSensitivity`
to `targetYear`, clamps `targetYear`, sets `isTransitioning = true` and
records `performance.now()` (the injected `now`). -/
def handleScroll (tc : TimeController) (deltaY now : ℚ) : TimeController :=
  let direction : ℚ := if deltaY > 0 then 1 else -1
  { tc with
    targetYear := clamp (tc.targetYear + direction * scrollSensitivity)
    isTransitioning := true
    transitionStartTime := now }

/-- `jumpToYear(year)`: clamps `year` into `targetYear`, flags the
transition and records the injected timestamp `now`. -/
def jumpToYear (tc : TimeController) (year now : ℚ) : TimeController :=
  { tc with
    targetYear := clamp year
    isTransitioning := true
    transitionStartTime := now }

/-- `update()`: saves `lastYear`, advances `currentYear` by
`yearDiff * lerpFactor`, snaps to `targetYear` when `|yearDiff| < 0.001`
(the TS code performs the lerp step first and then overwrites), clears
`isTransitioning` once `|currentYear - targetYear| < 0.01`, and finally
clamps `currentYear`. -/
def update (tc : TimeController) : TimeController :=
  let yearDiff := tc.targetYear - tc.currentYear
  let cur1 := tc.currentYear + yearDiff * lerpFactor
  let cur2 := if |yearDiff| < 1 / 1000 then tc.targetYear else cur1
  let trans :=
    if tc.isTransitioning ∧ |cur2 - tc.targetYear| < 1 / 100 then false
    else tc.isTransitioning
  { tc with
    currentYear := clamp cur2
    lastYear := tc.currentYear
    isTransitioning := trans }

/-- `isMoving()`: `|currentYear - lastYear| > 0.0001`. -/
def isMoving (tc : TimeController) : Bool :=
  decide (|tc.currentYear - tc.lastYear| > 1 / 10000)

/-- `getVelocity()`: `currentYear - lastYear`. -/
def getVelocity (tc : TimeController) : ℚ :=
  tc.currentYear - tc.lastYear

end TimeController

/-! ### Clamp helper lemmas -/

namespace TimeController

theorem clamp_mem (x : ℚ) : minYear ≤ clamp x ∧ clamp x ≤ maxYear := by
  constructor
  · exact le_max_left _ _
  · apply max_le
    · norm_num [minYear, maxYear]
    · exact min_le_left _ _

theorem clamp_eq_self {x : ℚ} (h1 : minYear ≤ x) (h2 : x ≤ maxYear) :
    clamp x = x := by
  unfold clamp
  rw [min_eq_right h2, max_eq_right h1]

end TimeController

/-! ## TemporalLayer (src/core/TemporalLayer.ts) -/

/-- A temporal entity's validity window (the only fields that
`TemporalLayer.calculateRelevance` reads). -/
structure TemporalEntity where
  startYear : ℚ
  endYear : ℚ
deriving Repr, DecidableEq

/-- `THREE.MathUtils.smoothstep(x, min, max)` from the three.js library
(src/math/MathUtils.js): returns `0` when `x ≤ min`, `1` when `x ≥ max`,
and otherwise the cubic Hermite interpolant of `x` normalised between
`min` and `max`.  Note the argument order: the *first* argument is the
sampling point, the second and third are the edges (unlike GLSL's
`smoothstep(edge0, edge1, x)`). -/
def smoothstep (x minv maxv : ℚ) : ℚ :=
  if x ≤ minv then 0
  else if x ≥ maxv then 1
  else
    let t := (x - minv) / (maxv - minv)
    t * t * (3 - 2 * t)

/-- `TemporalLayer.calculateRelevance(entity, year)`: with
`fadeRange = 0.5`, computes
`afterStart = THREE.MathUtils.smoothstep(startYear - fadeRange, startYear + fadeRange, year)`,
`beforeEnd = 1 - THREE.MathUtils.smoothstep(endYear - fadeRange, endYear + fadeRange, year)`
and returns `afterStart * beforeEnd`.  The TS code passes the arguments
in GLSL order (`edge0, edge1, x`) to a function whose signature is
`(x, min, max)`. -/
def calculateRelevance (entity : TemporalEntity) (year : ℚ) : ℚ :=
  let fadeRange : ℚ := 1 / 2
  let afterStart :=
    smoothstep (entity.startYear - fadeRange) (entity.startYear + fadeRange) year
  let beforeEnd :=
    1 - smoothstep (entity.endYear - fadeRange) (entity.endYear + fadeRange) year
  afterStart * beforeEnd

/-- Because `calculateRelevance` feeds `edge - fadeRange` as the
sampling point and `edge + fadeRange` as the lower edge of
`smoothstep(x, min, max)`, the guard `x ≤ min` always fires, so the
rising factor is identically `0` and the product vanishes for every
entity and every year. -/
theorem calculateRelevance_eq_zero (entity : TemporalEntity) (year : ℚ) :
    calculateRelevance entity year = 0 := by
  have h : entity.startYear - (1 / 2 : ℚ) ≤ entity.startYear + (1 / 2 : ℚ) := by
    linarith
  simp [calculateRelevance, smoothstep, h]
  intro h2
  exact absurd h2 (by linarith)

/-! ## BattleManager (the stochastic event scheduler) -/

/-- One entry of the `WARS` table: `name`, `start`, `end` (UC years) and
`color`.  The TS field `end` is a Lean keyword and is embedded as
`stop`. -/
structure War where
  name : String
  start : ℚ
  stop : ℚ
  color : ℕ
deriving Repr, DecidableEq

/-- The configured `WARS` table. -/
def WARS : List War :=
  [ { name := "One Year War", start := 79, stop := 80, color := 0xff3333 }
  , { name := "Gryps Conflict", start := 87, stop := 88, color := 0x33ff33 }
  , { name := "Neo Zeon War", start := 88, stop := 89, color := 0xffff33 } ]

/-- A transient beam artifact: the `opacity` of its
`LineBasicMaterial` and its `color`.  (The random spatial endpoints are
presentation-layer data that `BattleManager.update` never reads back;
they are omitted from the embedded state.) -/
structure Beam where
  opacity : ℚ
  color : ℕ
deriving Repr, DecidableEq

/-- `BattleManager.spawnBeam(colorHex)` as it affects the embedded
state: a new beam with `opacity: 0.8` and the war's color, pushed at the
end of the list. -/
def spawnBeam (colorHex : ℕ) : Beam :=
  { opacity := 4 / 5, color := colorHex }

/-- `BattleManager.update(currentYear)` with the `Math.random()` sample
injected as `rand`.
1. `WARS.find(w => currentYear >= w.start && currentYear <= w.end)`;
2. if a war is active and `rand > 0.8`, push a fresh beam;
3. then every beam (the fresh one included) has its opacity decremented
   by `0.05`, and beams whose new opacity is `≤ 0` are removed.
The TS backwards loop with `splice` is order-preserving, hence the
`map` + `filter`. -/
def bmUpdate (currentYear rand : ℚ) (beams : List Beam) : List Beam :=
  let activeWar :=
    WARS.find? fun w => decide (w.start ≤ currentYear ∧ currentYear ≤ w.stop)
  let afterSpawn :=
    match activeWar with
    | some w => if rand > 4 / 5 then beams ++ [spawnBeam w.color] else beams
    | none => beams
  (afterSpawn.map fun b => { b with opacity := b.opacity - 5 / 100 }).filter
    fun b => decide (¬ b.opacity ≤ 0)

/-! ## SceneManager.updateTemporalSystems (moon orbit) -/

/-- Truncation toward zero, the rounding underlying the JavaScript `%`
remainder operator. -/
def ratTrunc (q : ℚ) : ℤ :=
  if 0 ≤ q then ⌊q⌋ else ⌈q⌉

/-- The JavaScript remainder `a % b`: `a - b * trunc(a / b)`.  Its sign
follows the dividend `a`, not the divisor. -/
def jsMod (a b : ℚ) : ℚ :=
  a - b * ratTrunc (a / b)

/-- `2 * Math.PI` as the exact value of the IEEE-754 double, i.e. the
rational `884279719003555 / 2^47`. -/
def twoPi : ℚ := 884279719003555 / 140737488355328

/-- `const orbitSpeedPerYear = (2 * Math.PI) / 100`. -/
def orbitSpeedPerYear : ℚ := twoPi / 100

/-- `SceneManager.MOON_ORBIT_RADIUS` (numeric value irrelevant to the
claims; kept as a named constant). -/
def MOON_ORBIT_RADIUS : ℚ := 72

/-- The fields of `SceneManager` that `updateTemporalSystems` reads and
writes for the moon: the accumulated `moonOrbitAngle`, the moon group's
position (`x`, `z`; `y` is always set to `0`), its self-rotation, and
`lastUpdateYear`. -/
structure SceneState where
  moonOrbitAngle : ℚ
  moonPosX : ℚ
  moonPosZ : ℚ
  moonRotY : ℚ
  lastUpdateYear : ℚ
deriving Repr, DecidableEq

/-- `SceneManager.updateTemporalSystems(currentYear, timeController)`,
moon-orbit part.  `Math.cos` / `Math.sin` are injected as `mcos` /
`msin` (double-valued, hence `ℚ → ℚ`).  When
`timeController.isMoving()` and `|getVelocity()| > 0.0001`, the angle
accumulates `yearDelta * orbitSpeedPerYear` and is wrapped by the
JavaScript `%` with modulus `2π`; the moon position is set from the new
angle and the moon spins by `0.001`.  Otherwise nothing but
`lastUpdateYear` changes.  Wall-clock time never enters. -/
def updateTemporalSystems (mcos msin : ℚ → ℚ)
    (currentYear : ℚ) (tc : TimeController) (s : SceneState) : SceneState :=
  let yearDelta := currentYear - s.lastUpdateYear
  if TimeController.isMoving tc ∧ |TimeController.getVelocity tc| > 1 / 10000 then
    let angle := jsMod (s.moonOrbitAngle + yearDelta * orbitSpeedPerYear) twoPi
    { moonOrbitAngle := angle
      moonPosX := mcos angle * MOON_ORBIT_RADIUS
      moonPosZ := msin angle * MOON_ORBIT_RADIUS
      moonRotY := s.moonRotY + 1 / 1000
      lastUpdateYear := currentYear }
  else
    { s with lastUpdateYear := currentYear }

/-! ### jsMod range lemmas -/

theorem jsMod_nonneg_bounds {a b : ℚ} (ha : 0 ≤ a) (hb : 0 < b) :
    0 ≤ jsMod a b ∧ jsMod a b < b := by
  have hq : 0 ≤ a / b := div_nonneg ha hb.le
  have ht : ratTrunc (a / b) = ⌊a / b⌋ := if_pos hq
  unfold jsMod
  rw [ht]
  constructor
  · have h1 : (⌊a / b⌋ : ℚ) ≤ a / b := Int.floor_le _
    have h2 : b * (⌊a / b⌋ : ℚ) ≤ b * (a / b) := by
      exact mul_le_mul_of_nonneg_left h1 hb.le
    rw [mul_div_cancel₀ a hb.ne'] at h2
    linarith
  · have h1 : a / b < (⌊a / b⌋ : ℚ) + 1 := Int.lt_floor_add_one _
    have h2 : b * (a / b) < b * ((⌊a / b⌋ : ℚ) + 1) := by
      exact mul_lt_mul_of_pos_left h1 hb
    rw [mul_div_cancel₀ a hb.ne'] at h2
    nlinarith

theorem jsMod_neg_bounds {a b : ℚ} (ha : a < 0) (hb : 0 < b) :
    -b < jsMod a b ∧ jsMod a b ≤ 0 := by
  have hq : ¬ 0 ≤ a / b := by
    rw [not_le]
    exact div_neg_of_neg_of_pos ha hb
  have ht : ratTrunc (a / b) = ⌈a / b⌉ := if_neg hq
  unfold jsMod
  rw [ht]
  constructor
  · have h1 : ((⌈a / b⌉ : ℤ) : ℚ) < a / b + 1 := Int.ceil_lt_add_one _
    have h2 : b * ((⌈a / b⌉ : ℚ)) < b * (a / b + 1) := by
      exact mul_lt_mul_of_pos_left h1 hb
    rw [mul_add, mul_div_cancel₀ a hb.ne'] at h2
    nlinarith
  · have h1 : a / b ≤ ((⌈a / b⌉ : ℤ) : ℚ) := Int.le_ceil _
    have h2 : b * (a / b) ≤ b * ((⌈a / b⌉ : ℚ)) := by
      exact mul_le_mul_of_nonneg_left h1 hb.le
    rw [mul_div_cancel₀ a hb.ne'] at h2
    linarith

theorem twoPi_pos : (0 : ℚ) < twoPi := by norm_num [twoPi]

/-! ## calculateLagrangePoints (the libration points)

`Math.pow(·, 1/3)`, `Math.cos` and `Math.sin` on a value derived from
`Math.PI` have no exact rational model, so this one function is embedded
over `ℝ`. -/

/-- A three.js-style `[x, y, z]` triple. -/
structure Vec3 where
  x : ℝ
  y : ℝ
  z : ℝ

/-- The record returned by `calculateLagrangePoints`. -/
structure LagrangePoints where
  L1 : Vec3
  L2 : Vec3
  L3 : Vec3
  L4 : Vec3
  L5 : Vec3

/-- `calculateLagrangePoints(moonDistance)`: with mass ratio
`mu = 0.01215`,
`L1 = [moonDistance * (1 - (mu/3)^(1/3)), 0, 0]`,
`L2 = [moonDistance * (1 + (mu/3)^(1/3)), 0, 0]`,
`L3 = [-(moonDistance * (1 + (5/12) * mu)), 0, 0]`, and `L4`, `L5` at
angle `±60°` (`angle60 = Math.PI / 3`) in the XZ plane. -/
noncomputable def calculateLagrangePoints (moonDistance : ℝ) : LagrangePoints :=
  let mu : ℝ := 0.01215
  let L1_dist := moonDistance * (1 - (mu / 3) ^ ((1 : ℝ) / 3))
  let L1 : Vec3 := ⟨L1_dist, 0, 0⟩
  let L2_dist := moonDistance * (1 + (mu / 3) ^ ((1 : ℝ) / 3))
  let L2 : Vec3 := ⟨L2_dist, 0, 0⟩
  let L3_dist := moonDistance * (1 + 5 / 12 * mu)
  let L3 : Vec3 := ⟨-L3_dist, 0, 0⟩
  let angle60 := Real.pi / 3
  let L4 : Vec3 :=
    ⟨moonDistance * Real.cos angle60, 0, moonDistance * Real.sin angle60⟩
  let L5 : Vec3 :=
    ⟨moonDistance * Real.cos angle60, 0, -(moonDistance * Real.sin angle60)⟩
  ⟨L1, L2, L3, L4, L5⟩

theorem cbrt_mu_third_pos : (0 : ℝ) < ((0.01215 : ℝ) / 3) ^ ((1 : ℝ) / 3) :=
  Real.rpow_pos_of_pos (by norm_num) _

theorem cbrt_mu_third_lt_one : ((0.01215 : ℝ) / 3) ^ ((1 : ℝ) / 3) < 1 :=
  Real.rpow_lt_one (by norm_num) (by norm_num) (by norm_num)

/-! ## TimeController helper lemmas -/

namespace TimeController

theorem update_targetYear_eq (tc : TimeController) :
    (update tc).targetYear = tc.targetYear := rfl

theorem update_currentYear_mem (tc : TimeController) :
    minYear ≤ (update tc).currentYear ∧ (update tc).currentYear ≤ maxYear :=
  clamp_mem _

theorem update_snap (tc : TimeController)
    (ht1 : minYear ≤ tc.targetYear) (ht2 : tc.targetYear ≤ maxYear)
    (h : |tc.targetYear - tc.currentYear| < 1 / 1000) :
    (update tc).currentYear = tc.targetYear := by
  show clamp (if |tc.targetYear - tc.currentYear| < 1 / 1000 then tc.targetYear
      else tc.currentYear + (tc.targetYear - tc.currentYear) * lerpFactor)
    = tc.targetYear
  rw [if_pos h, clamp_eq_self ht1 ht2]

theorem update_no_snap (tc : TimeController)
    (hc1 : minYear ≤ tc.currentYear) (hc2 : tc.currentYear ≤ maxYear)
    (ht1 : minYear ≤ tc.targetYear) (ht2 : tc.targetYear ≤ maxYear)
    (h : ¬ |tc.targetYear - tc.currentYear| < 1 / 1000) :
    (update tc).currentYear
      = tc.currentYear + (tc.targetYear - tc.currentYear) * lerpFactor := by
  have hc1' : (1 : ℚ) ≤ tc.currentYear := hc1
  have hc2' : tc.currentYear ≤ (100 : ℚ) := hc2
  have ht1' : (1 : ℚ) ≤ tc.targetYear := ht1
  have ht2' : tc.targetYear ≤ (100 : ℚ) := ht2
  show clamp (if |tc.targetYear - tc.currentYear| < 1 / 1000 then tc.targetYear
      else tc.currentYear + (tc.targetYear - tc.currentYear) * lerpFactor)
    = tc.currentYear + (tc.targetYear - tc.currentYear) * lerpFactor
  rw [if_neg h]
  apply clamp_eq_self
  · show (1 : ℚ) ≤ tc.currentYear + (tc.targetYear - tc.currentYear) * (1 / 10)
    linarith
  · show tc.currentYear + (tc.targetYear - tc.currentYear) * (1 / 10) ≤ (100 : ℚ)
    linarith

theorem update_diff (tc : TimeController)
    (hc1 : minYear ≤ tc.currentYear) (hc2 : tc.currentYear ≤ maxYear)
    (ht1 : minYear ≤ tc.targetYear) (ht2 : tc.targetYear ≤ maxYear) :
    tc.targetYear - (update tc).currentYear = 0 ∨
    tc.targetYear - (update tc).currentYear
      = 9 / 10 * (tc.targetYear - tc.currentYear) := by
  by_cases h : |tc.targetYear - tc.currentYear| < 1 / 1000
  · left
    rw [update_snap tc ht1 ht2 h]
    ring
  · right
    rw [update_no_snap tc hc1 hc2 ht1 ht2 h]
    have hl : lerpFactor = 1 / 10 := rfl
    rw [hl]
    ring

theorem iterate_invariant (tc : TimeController)
    (hc1 : minYear ≤ tc.currentYear) (hc2 : tc.currentYear ≤ maxYear)
    (ht1 : minYear ≤ tc.targetYear) (ht2 : tc.targetYear ≤ maxYear) (n : ℕ) :
    (update^[n] tc).targetYear = tc.targetYear ∧
    minYear ≤ (update^[n] tc).currentYear ∧
    (update^[n] tc).currentYear ≤ maxYear ∧
    |tc.targetYear - (update^[n] tc).currentYear|
      ≤ (9 / 10) ^ n * |tc.targetYear - tc.currentYear| := by
  induction n with
  | zero =>
    refine ⟨rfl, hc1, hc2, ?_⟩
    simp
  | succ n ih =>
    obtain ⟨htgt, hb1, hb2, hd⟩ := ih
    have ht1' : minYear ≤ (update^[n] tc).targetYear := by rw [htgt]; exact ht1
    have ht2' : (update^[n] tc).targetYear ≤ maxYear := by rw [htgt]; exact ht2
    rw [Function.iterate_succ_apply']
    refine ⟨by rw [update_targetYear_eq, htgt], (update_currentYear_mem _).1,
      (update_currentYear_mem _).2, ?_⟩
    have hdiff := update_diff (update^[n] tc) hb1 hb2 ht1' ht2'
    rw [htgt] at hdiff
    have hpow : (0 : ℚ) ≤ (9 / 10) ^ n * |tc.targetYear - tc.currentYear| := by
      positivity
    rcases hdiff with h | h
    · rw [h]
      simp only [abs_zero]
      positivity
    · rw [h, abs_mul]
      have h9 : |(9 : ℚ) / 10| = 9 / 10 := by norm_num
      rw [h9]
      have hd' : (update^[n] tc).targetYear = tc.targetYear := htgt
      rw [pow_succ]
      calc 9 / 10 * |tc.targetYear - (update^[n] tc).currentYear|
          ≤ 9 / 10 * ((9 / 10) ^ n * |tc.targetYear - tc.currentYear|) := by
            nlinarith
        _ = (9 / 10) ^ n * (9 / 10) * |tc.targetYear - tc.currentYear| := by ring

theorem converges (tc : TimeController)
    (hc1 : minYear ≤ tc.currentYear) (hc2 : tc.currentYear ≤ maxYear)
    (ht1 : minYear ≤ tc.targetYear) (ht2 : tc.targetYear ≤ maxYear) :
    ∃ n, (update^[n] tc).currentYear = tc.targetYear := by
  obtain ⟨N, hN⟩ :
      ∃ N, (9 / 10 : ℚ) ^ N * |tc.targetYear - tc.currentYear| < 1 / 1000 := by
    by_cases hd : tc.targetYear - tc.currentYear = 0
    · refine ⟨0, ?_⟩
      rw [hd]
      norm_num
    · have habs : 0 < |tc.targetYear - tc.currentYear| := abs_pos.mpr hd
      obtain ⟨n, hn⟩ :=
        exists_pow_lt_of_lt_one
          (show (0 : ℚ) < 1 / 1000 / |tc.targetYear - tc.currentYear| by positivity)
          (show (9 / 10 : ℚ) < 1 by norm_num)
      exact ⟨n, (lt_div_iff₀ habs).mp hn⟩
  obtain ⟨htgt, hb1, hb2, hdist⟩ := iterate_invariant tc hc1 hc2 ht1 ht2 N
  have ht1' : minYear ≤ (update^[N] tc).targetYear := by rw [htgt]; exact ht1
  have ht2' : (update^[N] tc).targetYear ≤ maxYear := by rw [htgt]; exact ht2
  have hsnap :
      |(update^[N] tc).targetYear - (update^[N] tc).currentYear| < 1 / 1000 := by
    rw [htgt]
    exact lt_of_le_of_lt hdist hN
  refine ⟨N + 1, ?_⟩
  rw [Function.iterate_succ_apply', update_snap _ ht1' ht2' hsnap, htgt]

end TimeController

/-! ## Claim theorems for the TimeController -/

/-- C1: for every `TimeController` state in which both `currentYear` and
`targetYear` lie within `[minYear, maxYear]`, each of
`handleScroll(delta)` for any `delta`, `jumpToYear(year)` for any
`year`, and `update()` leaves both `currentYear` and `targetYear`
within `[minYear, maxYear]`; in particular after any `update()` call
`minYear ≤ currentYear ≤ maxYear`. -/
theorem C1_bounds_invariant (tc : TimeController) (deltaY year now : ℚ)
    (hc1 : TimeController.minYear ≤ tc.currentYear)
    (hc2 : tc.currentYear ≤ TimeController.maxYear)
    (ht1 : TimeController.minYear ≤ tc.targetYear)
    (ht2 : tc.targetYear ≤ TimeController.maxYear) :
    (TimeController.minYear ≤ (tc.handleScroll deltaY now).currentYear ∧
      (tc.handleScroll deltaY now).currentYear ≤ TimeController.maxYear ∧
      TimeController.minYear ≤ (tc.handleScroll deltaY now).targetYear ∧
      (tc.handleScroll deltaY now).targetYear ≤ TimeController.maxYear) ∧
    (TimeController.minYear ≤ (tc.jumpToYear year now).currentYear ∧
      (tc.jumpToYear year now).currentYear ≤ TimeController.maxYear ∧
      TimeController.minYear ≤ (tc.jumpToYear year now).targetYear ∧
      (tc.jumpToYear year now).targetYear ≤ TimeController.maxYear) ∧
    (TimeController.minYear ≤ tc.update.currentYear ∧
      tc.update.currentYear ≤ TimeController.maxYear ∧
      TimeController.minYear ≤ tc.update.targetYear ∧
      tc.update.targetYear ≤ TimeController.maxYear) := by
  refine ⟨⟨hc1, hc2, ?_, ?_⟩, ⟨hc1, hc2, ?_, ?_⟩, ?_, ?_, ?_, ?_⟩
  · exact (TimeController.clamp_mem _).1
  · exact (TimeController.clamp_mem _).2
  · exact (TimeController.clamp_mem _).1
  · exact (TimeController.clamp_mem _).2
  · exact (TimeController.update_currentYear_mem tc).1
  · exact (TimeController.update_currentYear_mem tc).2
  · rw [TimeController.update_targetYear_eq]
    exact ht1
  · rw [TimeController.update_targetYear_eq]
    exact ht2

/-- Witness for C1 at the state `currentYear = 79`, `targetYear = 100`
with inputs `delta = -3`, `year = 200`. -/
theorem C1_bounds_invariant_witness :
    TimeController.minYear ≤ (79 : ℚ) ∧ (79 : ℚ) ≤ TimeController.maxYear ∧
    TimeController.minYear ≤ (100 : ℚ) ∧ (100 : ℚ) ≤ TimeController.maxYear ∧
    TimeController.minYear
      ≤ (⟨79, 100, true, 0, 79⟩ : TimeController).update.currentYear := by
  refine ⟨by decide, by decide, by decide, by decide, ?_⟩
  exact (C1_bounds_invariant ⟨79, 100, true, 0, 79⟩ (-3) 200 5
    (by decide) (by decide) (by decide) (by decide)).2.2.1

/-- C2: if `currentYear` and `targetYear` are within bounds, one
`update()` leaves `targetYear` fixed and `|targetYear - currentYear|`
no larger than before, the sign of `targetYear - currentYear` never
flips (no overshoot), and after finitely many `update()` calls
`currentYear` equals `targetYear` exactly. -/
theorem C2_convergence (tc : TimeController)
    (hc1 : TimeController.minYear ≤ tc.currentYear)
    (hc2 : tc.currentYear ≤ TimeController.maxYear)
    (ht1 : TimeController.minYear ≤ tc.targetYear)
    (ht2 : tc.targetYear ≤ TimeController.maxYear) :
    tc.update.targetYear = tc.targetYear ∧
    |tc.targetYear - tc.update.currentYear|
      ≤ |tc.targetYear - tc.currentYear| ∧
    (0 ≤ tc.targetYear - tc.currentYear →
      0 ≤ tc.targetYear - tc.update.currentYear) ∧
    (tc.targetYear - tc.currentYear ≤ 0 →
      tc.targetYear - tc.update.currentYear ≤ 0) ∧
    ∃ n, (TimeController.update^[n] tc).currentYear = tc.targetYear := by
  have hdiff := TimeController.update_diff tc hc1 hc2 ht1 ht2
  refine ⟨rfl, ?_, ?_, ?_, TimeController.converges tc hc1 hc2 ht1 ht2⟩
  · rcases hdiff with h | h
    · rw [h]
      simp only [abs_zero]
      exact abs_nonneg _
    · rw [h, abs_mul]
      have h9 : |(9 : ℚ) / 10| = 9 / 10 := by norm_num
      rw [h9]
      nlinarith [abs_nonneg (tc.targetYear - tc.currentYear)]
  · intro hs
    rcases hdiff with h | h
    · rw [h]
    · rw [h]
      linarith
  · intro hs
    rcases hdiff with h | h
    · rw [h]
    · rw [h]
      linarith

/-- Witness for C2 at the state `currentYear = 79`, `targetYear = 100`. -/
theorem C2_convergence_witness :
    TimeController.minYear ≤ (79 : ℚ) ∧ (79 : ℚ) ≤ TimeController.maxYear ∧
    TimeController.minYear ≤ (100 : ℚ) ∧ (100 : ℚ) ≤ TimeController.maxYear ∧
    ∃ n, (TimeController.update^[n] (⟨79, 100, true, 0, 79⟩ : TimeController)).currentYear
      = (100 : ℚ) := by
  refine ⟨by decide, by decide, by decide, by decide, ?_⟩
  exact (C2_convergence ⟨79, 100, true, 0, 79⟩
    (by decide) (by decide) (by decide) (by decide)).2.2.2.2

/-- C5 counterexample: from the freshly constructed controller
(`targetYear = 79`), `handleScroll(2)` does not add
`2 * scrollSensitivity = 0.1` to `targetYear` (it adds only `0.05`,
the sign of the delta times the sensitivity, ignoring the magnitude). -/
theorem C5_magnitude_ignored_cex :
    ((TimeController.init 79).handleScroll 2 0).targetYear
      ≠ TimeController.clamp
          ((TimeController.init 79).targetYear
            + 2 * TimeController.scrollSensitivity) := by
  have e1 : ((TimeController.init 79).handleScroll 2 0).targetYear
      = 1581 / 20 := by
    show TimeController.clamp
        ((79 : ℚ) + (if (2 : ℚ) > 0 then 1 else -1) * TimeController.scrollSensitivity)
      = 1581 / 20
    rw [if_pos (by norm_num),
      TimeController.clamp_eq_self
        (by norm_num [TimeController.minYear, TimeController.scrollSensitivity])
        (by norm_num [TimeController.maxYear, TimeController.scrollSensitivity])]
    norm_num [TimeController.scrollSensitivity]
  have e2 : TimeController.clamp
      ((TimeController.init 79).targetYear + 2 * TimeController.scrollSensitivity)
      = 791 / 10 := by
    show TimeController.clamp ((79 : ℚ) + 2 * TimeController.scrollSensitivity)
      = 791 / 10
    rw [TimeController.clamp_eq_self
        (by norm_num [TimeController.minYear, TimeController.scrollSensitivity])
        (by norm_num [TimeController.maxYear, TimeController.scrollSensitivity])]
    norm_num [TimeController.scrollSensitivity]
  rw [e1, e2]
  norm_num

/-- C5 amended: `handleScroll(delta)` adds `sign(delta) *
scrollSensitivity` to `targetYear` — where the sign is `1` for
`delta > 0` and `-1` otherwise (the magnitude of `delta` is ignored,
and `delta = 0` counts as negative) — clamps the result to
`[minYear, maxYear]`, sets `isTransitioning` to `true` and records the
transition start timestamp; `currentYear` is unchanged. -/
theorem C5_handleScroll_amended (tc : TimeController) (deltaY now : ℚ) :
    (tc.handleScroll deltaY now).targetYear
      = TimeController.clamp
          (tc.targetYear
            + (if deltaY > 0 then 1 else -1) * TimeController.scrollSensitivity) ∧
    (tc.handleScroll deltaY now).isTransitioning = true ∧
    (tc.handleScroll deltaY now).transitionStartTime = now ∧
    (tc.handleScroll deltaY now).currentYear = tc.currentYear :=
  ⟨rfl, rfl, rfl, rfl⟩

/-- C10: the constructor performs no clamping: `new TimeController(y)`
sets `currentYear = targetYear = lastYear = y` for every `y`, even out
of `[minYear, maxYear]`; and `update()` never changes `targetYear`, so
an out-of-range `targetYear` is never restored into bounds by
`update()` alone. -/
theorem C10_constructor_no_clamp :
    (∀ y : ℚ, (TimeController.init y).currentYear = y ∧
      (TimeController.init y).targetYear = y ∧
      (TimeController.init y).lastYear = y) ∧
    (∀ tc : TimeController, tc.update.targetYear = tc.targetYear) :=
  ⟨fun _ => ⟨rfl, rfl, rfl⟩, fun _ => rfl⟩

/-! ## Claim theorems for the temporal-relevance function -/

/-- C3 (code defect): because `calculateRelevance` passes its arguments
to `THREE.MathUtils.smoothstep(x, min, max)` in GLSL `(edge0, edge1, x)`
order, the rising factor is identically zero, so the relevance is `0`
for every entity and every year — in particular `0`, not `1`, at the
spec's own interior scenario `startYear = 50`, `endYear = 60`,
`t = 55`. -/
theorem C3_relevance_identically_zero :
    calculateRelevance ⟨50, 60⟩ 55 = 0 ∧
    ∀ (entity : TemporalEntity) (year : ℚ), calculateRelevance entity year = 0 :=
  ⟨calculateRelevance_eq_zero _ _, calculateRelevance_eq_zero⟩

/-- C4: for every entity whose `endYear ≤ startYear` and every time
`t`, `calculateRelevance` returns `0` (the entity is treated as never
visible; no error is raised). -/
theorem C4_degenerate_window_zero (entity : TemporalEntity)
    (_h : entity.endYear ≤ entity.startYear) (year : ℚ) :
    calculateRelevance entity year = 0 :=
  calculateRelevance_eq_zero entity year

/-- Witness for C4 at the degenerate window `startYear = 60`,
`endYear = 50` and `t = 55`. -/
theorem C4_degenerate_window_zero_witness :
    (⟨60, 50⟩ : TemporalEntity).endYear ≤ (⟨60, 50⟩ : TemporalEntity).startYear ∧
    calculateRelevance ⟨60, 50⟩ 55 = 0 :=
  ⟨by decide, C4_degenerate_window_zero ⟨60, 50⟩ (by decide) 55⟩

/-! ## Claim theorems for the moon orbit -/

/-- C6: whenever `TimeController.isMoving()` is `false` at a tick, the
orbital update leaves `moonOrbitAngle` and the moon group's position
exactly unchanged, for every injected `Math.cos`/`Math.sin`, every
`currentYear`, and regardless of elapsed wall-clock time (wall-clock
time does not enter the computation at all). -/
theorem C6_no_drift_when_paused (mcos msin : ℚ → ℚ) (currentYear : ℚ)
    (tc : TimeController) (s : SceneState)
    (h : TimeController.isMoving tc = false) :
    (updateTemporalSystems mcos msin currentYear tc s).moonOrbitAngle
      = s.moonOrbitAngle ∧
    (updateTemporalSystems mcos msin currentYear tc s).moonPosX = s.moonPosX ∧
    (updateTemporalSystems mcos msin currentYear tc s).moonPosZ = s.moonPosZ ∧
    (updateTemporalSystems mcos msin currentYear tc s).moonRotY = s.moonRotY := by
  simp [updateTemporalSystems, h]

/-- Witness for C6: a paused controller (`currentYear = lastYear = 79`)
leaves a scene with angle `1` untouched. -/
theorem C6_no_drift_when_paused_witness :
    TimeController.isMoving ⟨79, 100, true, 0, 79⟩ = false ∧
    (updateTemporalSystems (fun _ => 0) (fun _ => 0) 79
        ⟨79, 100, true, 0, 79⟩ ⟨1, 72, 0, 0, 79⟩).moonOrbitAngle = 1 := by
  have h : TimeController.isMoving ⟨79, 100, true, 0, 79⟩ = false := by
    simp [TimeController.isMoving]
  exact ⟨h, (C6_no_drift_when_paused (fun _ => 0) (fun _ => 0) 79
    ⟨79, 100, true, 0, 79⟩ ⟨1, 72, 0, 0, 79⟩ h).1⟩

/-- C9 counterexample: a tick on which the year scrubbed backward by 50
years (controller at `currentYear = 29` after `lastYear = 30`, scene
last updated at year 79, angle `0`) leaves `moonOrbitAngle` negative:
the JavaScript `%` remainder keeps the sign of its dividend, so the
result `-π` is not in `[0, 2π)`. -/
theorem C9_negative_angle_cex :
    (updateTemporalSystems (fun _ => 0) (fun _ => 0) 29
        ⟨29, 1, true, 0, 30⟩ ⟨0, 72, 0, 0, 79⟩).moonOrbitAngle < 0 := by
  have hmov : TimeController.isMoving ⟨29, 1, true, 0, 30⟩ = true := by
    norm_num [TimeController.isMoving]
  have hvel : |TimeController.getVelocity ⟨29, 1, true, 0, 30⟩| > 1 / 10000 := by
    norm_num [TimeController.getVelocity]
  have harg : (0 : ℚ) + (29 - 79) * orbitSpeedPerYear = -(twoPi / 2) := by
    rw [orbitSpeedPerYear]
    ring
  have hdiv : (-(twoPi / 2)) / twoPi = -(1 / 2) := by
    rw [div_eq_iff twoPi_pos.ne']
    ring
  have htr : ratTrunc (-(1 / 2) : ℚ) = 0 := by
    rw [ratTrunc, if_neg (by norm_num)]
    rw [Int.ceil_eq_zero_iff]
    constructor
    · norm_num
    · norm_num
  have hmod : jsMod (-(twoPi / 2)) twoPi = -(twoPi / 2) := by
    rw [jsMod, hdiv, htr]
    push_cast
    ring
  show (if (TimeController.isMoving ⟨29, 1, true, 0, 30⟩ : Prop)
        ∧ |TimeController.getVelocity ⟨29, 1, true, 0, 30⟩| > 1 / 10000 then _
      else _ : SceneState).moonOrbitAngle < 0
  rw [if_pos ⟨by rw [hmov], hvel⟩]
  show jsMod ((0 : ℚ) + (29 - 79) * orbitSpeedPerYear) twoPi < 0
  rw [harg, hmod]
  have := twoPi_pos
  linarith

/-- C9 amended: after an orbital update tick starting from an angle in
`[0, 2π)`, the new `moonOrbitAngle` lies in the open interval
`(-2π, 2π)`; it lies in `[0, 2π)` whenever the tick's year delta is
nonnegative, but on a tick with negative year delta it may be negative
(the JavaScript `%` keeps the dividend's sign). -/
theorem C9_angle_range_amended (mcos msin : ℚ → ℚ) (currentYear : ℚ)
    (tc : TimeController) (s : SceneState)
    (h1 : 0 ≤ s.moonOrbitAngle) (h2 : s.moonOrbitAngle < twoPi) :
    (-twoPi < (updateTemporalSystems mcos msin currentYear tc s).moonOrbitAngle ∧
      (updateTemporalSystems mcos msin currentYear tc s).moonOrbitAngle < twoPi) ∧
    (0 ≤ currentYear - s.lastUpdateYear →
      0 ≤ (updateTemporalSystems mcos msin currentYear tc s).moonOrbitAngle ∧
      (updateTemporalSystems mcos msin currentYear tc s).moonOrbitAngle < twoPi) := by
  by_cases hc : (TimeController.isMoving tc : Prop)
      ∧ |TimeController.getVelocity tc| > 1 / 10000
  · have hangle : (updateTemporalSystems mcos msin currentYear tc s).moonOrbitAngle
        = jsMod (s.moonOrbitAngle + (currentYear - s.lastUpdateYear) * orbitSpeedPerYear)
            twoPi := by
      show (if (TimeController.isMoving tc : Prop)
            ∧ |TimeController.getVelocity tc| > 1 / 10000 then _
          else _ : SceneState).moonOrbitAngle = _
      rw [if_pos hc]
    rw [hangle]
    set a := s.moonOrbitAngle + (currentYear - s.lastUpdateYear) * orbitSpeedPerYear
      with ha
    constructor
    · rcases le_or_lt 0 a with hs | hs
      · obtain ⟨hg1, hg2⟩ := jsMod_nonneg_bounds hs twoPi_pos
        constructor
        · linarith [twoPi_pos]
        · exact hg2
      · obtain ⟨hg1, hg2⟩ := jsMod_neg_bounds hs twoPi_pos
        constructor
        · exact hg1
        · linarith [twoPi_pos]
    · intro hd
      have hs : 0 ≤ a := by
        have hsp : 0 ≤ orbitSpeedPerYear := by
          rw [orbitSpeedPerYear]
          have := twoPi_pos
          linarith
        have : 0 ≤ (currentYear - s.lastUpdateYear) * orbitSpeedPerYear :=
          mul_nonneg hd hsp
        rw [ha]
        linarith
      exact jsMod_nonneg_bounds hs twoPi_pos
  · have hangle : (updateTemporalSystems mcos msin currentYear tc s).moonOrbitAngle
        = s.moonOrbitAngle := by
      show (if (TimeController.isMoving tc : Prop)
            ∧ |TimeController.getVelocity tc| > 1 / 10000 then _
          else _ : SceneState).moonOrbitAngle = _
      rw [if_neg hc]
    rw [hangle]
    exact ⟨⟨by linarith [twoPi_pos], h2⟩, fun _ => ⟨h1, h2⟩⟩

/-- Witness for C9 (amended) at a forward tick: angle `1`, year moving
from 79 to 80. -/
theorem C9_angle_range_amended_witness :
    (0 : ℚ) ≤ (⟨1, 72, 0, 0, 79⟩ : SceneState).moonOrbitAngle ∧
    (⟨1, 72, 0, 0, 79⟩ : SceneState).moonOrbitAngle < twoPi ∧
    (-twoPi < (updateTemporalSystems (fun _ => 0) (fun _ => 0) 80
        ⟨80, 100, true, 0, 79⟩ ⟨1, 72, 0, 0, 79⟩).moonOrbitAngle ∧
      (updateTemporalSystems (fun _ => 0) (fun _ => 0) 80
        ⟨80, 100, true, 0, 79⟩ ⟨1, 72, 0, 0, 79⟩).moonOrbitAngle < twoPi) := by
  have h1 : (0 : ℚ) ≤ (⟨1, 72, 0, 0, 79⟩ : SceneState).moonOrbitAngle := by
    norm_num
  have h2 : (⟨1, 72, 0, 0, 79⟩ : SceneState).moonOrbitAngle < twoPi := by
    show (1 : ℚ) < twoPi
    rw [twoPi]
    norm_num
  exact ⟨h1, h2, (C9_angle_range_amended (fun _ => 0) (fun _ => 0) 80
    ⟨80, 100, true, 0, 79⟩ ⟨1, 72, 0, 0, 79⟩ h1 h2).1⟩

/-! ## Claim theorem for the libration points -/

/-- C7: for every positive separation distance `d` and mass ratio
`mu = 0.01215`, `calculateLagrangePoints` returns
`L1 = (d*(1-(mu/3)^(1/3)), 0, 0)`, `L2 = (d*(1+(mu/3)^(1/3)), 0, 0)`,
`L3 = (-(d*(1+(5/12)*mu)), 0, 0)` and `L4`, `L5` at distance `d` and
angle `±60°` in the XZ plane; consequently `L1.x < d < L2.x`,
`L3.x < 0`, and `L4`, `L5` are reflections of each other across the
primary axis (equal `x`, `y = 0`, opposite `z`). -/
theorem C7_lagrange_points (d : ℝ) (hd : 0 < d) :
    (calculateLagrangePoints d).L1
      = ⟨d * (1 - ((0.01215 : ℝ) / 3) ^ ((1 : ℝ) / 3)), 0, 0⟩ ∧
    (calculateLagrangePoints d).L2
      = ⟨d * (1 + ((0.01215 : ℝ) / 3) ^ ((1 : ℝ) / 3)), 0, 0⟩ ∧
    (calculateLagrangePoints d).L3
      = ⟨-(d * (1 + 5 / 12 * 0.01215)), 0, 0⟩ ∧
    (calculateLagrangePoints d).L4
      = ⟨d * Real.cos (Real.pi / 3), 0, d * Real.sin (Real.pi / 3)⟩ ∧
    (calculateLagrangePoints d).L5
      = ⟨d * Real.cos (Real.pi / 3), 0, -(d * Real.sin (Real.pi / 3))⟩ ∧
    (calculateLagrangePoints d).L1.x < d ∧
    d < (calculateLagrangePoints d).L2.x ∧
    (calculateLagrangePoints d).L3.x < 0 ∧
    ((calculateLagrangePoints d).L4.x = (calculateLagrangePoints d).L5.x ∧
      (calculateLagrangePoints d).L4.y = 0 ∧
      (calculateLagrangePoints d).L5.y = 0 ∧
      (calculateLagrangePoints d).L4.z = -(calculateLagrangePoints d).L5.z) ∧
    (calculateLagrangePoints d).L4.x ^ 2 + (calculateLagrangePoints d).L4.z ^ 2
      = d ^ 2 ∧
    (calculateLagrangePoints d).L5.x ^ 2 + (calculateLagrangePoints d).L5.z ^ 2
      = d ^ 2 := by
  have hc0 := cbrt_mu_third_pos
  have hc1 := cbrt_mu_third_lt_one
  have hpyth := Real.sin_sq_add_cos_sq (Real.pi / 3)
  refine ⟨rfl, rfl, rfl, rfl, rfl, ?_, ?_, ?_, ⟨rfl, rfl, rfl, ?_⟩, ?_, ?_⟩
  · show d * (1 - ((0.01215 : ℝ) / 3) ^ ((1 : ℝ) / 3)) < d
    nlinarith [mul_pos hd hc0]
  · show d < d * (1 + ((0.01215 : ℝ) / 3) ^ ((1 : ℝ) / 3))
    nlinarith [mul_pos hd hc0]
  · show -(d * (1 + 5 / 12 * 0.01215)) < 0
    nlinarith [hd]
  · show d * Real.sin (Real.pi / 3) = -(-(d * Real.sin (Real.pi / 3)))
    rw [neg_neg]
  · show (d * Real.cos (Real.pi / 3)) ^ 2 + (d * Real.sin (Real.pi / 3)) ^ 2
      = d ^ 2
    have hr : (d * Real.cos (Real.pi / 3)) ^ 2 + (d * Real.sin (Real.pi / 3)) ^ 2
        = d ^ 2 * (Real.sin (Real.pi / 3) ^ 2 + Real.cos (Real.pi / 3) ^ 2) := by
      ring
    rw [hr, hpyth, mul_one]
  · show (d * Real.cos (Real.pi / 3)) ^ 2 + (-(d * Real.sin (Real.pi / 3))) ^ 2
      = d ^ 2
    have hr : (d * Real.cos (Real.pi / 3)) ^ 2
        + (-(d * Real.sin (Real.pi / 3))) ^ 2
        = d ^ 2 * (Real.sin (Real.pi / 3) ^ 2 + Real.cos (Real.pi / 3) ^ 2) := by
      ring
    rw [hr, hpyth, mul_one]

/-- Witness for C7 at the repository's `MOON_DIST ≈ 72`. -/
theorem C7_lagrange_points_witness :
    (0 : ℝ) < 72 ∧
    (calculateLagrangePoints 72).L1.x < 72 ∧
    72 < (calculateLagrangePoints 72).L2.x ∧
    (calculateLagrangePoints 72).L3.x < 0 := by
  have h := C7_lagrange_points 72 (by norm_num)
  exact ⟨by norm_num, h.2.2.2.2.2.1, h.2.2.2.2.2.2.1, h.2.2.2.2.2.2.2.1⟩

/-! ## Claim theorem for the stochastic event scheduler -/

/-- C8: if `currentYear` lies outside every configured war period, one
call of `BattleManager.update` spawns no artifact for any value of the
random sample — the result is exactly the existing beams with opacity
decremented by `0.05` and those reaching `≤ 0` removed; every surviving
beam stems from an existing beam with opacity above `0.05`, so
pre-existing artifacts at opacity `0.05` are removed by the tick. -/
theorem C8_scheduler_outside_period (currentYear : ℚ)
    (h : ∀ w ∈ WARS, ¬ (w.start ≤ currentYear ∧ currentYear ≤ w.stop))
    (rand : ℚ) (beams : List Beam) :
    bmUpdate currentYear rand beams
      = (beams.map fun b => { b with opacity := b.opacity - 5 / 100 }).filter
          (fun b => decide (¬ b.opacity ≤ 0)) ∧
    (∀ b' ∈ bmUpdate currentYear rand beams, ∃ b ∈ beams,
      b'.color = b.color ∧ b'.opacity = b.opacity - 5 / 100 ∧
      5 / 100 < b.opacity) ∧
    (bmUpdate currentYear rand beams).length ≤ beams.length := by
  have hfind : WARS.find?
      (fun w => decide (w.start ≤ currentYear ∧ currentYear ≤ w.stop)) = none := by
    rw [List.find?_eq_none]
    intro w hw
    simpa using h w hw
  have heq : bmUpdate currentYear rand beams
      = (beams.map fun b => { b with opacity := b.opacity - 5 / 100 }).filter
          (fun b => decide (¬ b.opacity ≤ 0)) := by
    simp only [bmUpdate, hfind]
  refine ⟨heq, ?_, ?_⟩
  · intro b' hb'
    rw [heq] at hb'
    obtain ⟨hmem, hkeep⟩ := List.mem_filter.mp hb'
    obtain ⟨b, hb, hbe⟩ := List.mem_map.mp hmem
    have hop : ¬ b'.opacity ≤ 0 := by simpa using hkeep
    refine ⟨b, hb, ?_, ?_, ?_⟩
    · rw [← hbe]
    · rw [← hbe]
    · have : b'.opacity = b.opacity - 5 / 100 := by rw [← hbe]
      rw [this] at hop
      linarith
  · rw [heq]
    have h1 := List.length_filter_le (fun b => decide (¬ b.opacity ≤ 0))
      (beams.map fun b => { b with opacity := b.opacity - 5 / 100 })
    rw [List.length_map] at h1
    exact h1

/-- Witness for C8 at `currentYear = 50` (outside every war), random
sample `0.9` (above the spawn threshold), with two pre-existing beams
at opacities `0.05` and `0.5`: only the second survives, faded. -/
theorem C8_scheduler_outside_period_witness :
    (∀ w ∈ WARS, ¬ (w.start ≤ (50 : ℚ) ∧ (50 : ℚ) ≤ w.stop)) ∧
    bmUpdate 50 (9 / 10) [⟨5 / 100, 0⟩, ⟨5 / 10, 0⟩]
      = (([⟨5 / 100, 0⟩, ⟨5 / 10, 0⟩] : List Beam).map
          fun b => { b with opacity := b.opacity - 5 / 100 }).filter
          (fun b => decide (¬ b.opacity ≤ 0)) := by
  have h : ∀ w ∈ WARS, ¬ (w.start ≤ (50 : ℚ) ∧ (50 : ℚ) ≤ w.stop) := by
    decide
  exact ⟨h, (C8_scheduler_outside_period 50 h (9 / 10)
    [⟨5 / 100, 0⟩, ⟨5 / 10, 0⟩]).1⟩

end Laplace
